import Mathlib

/-!
Verification development for `daily.py` of the generate-dailies repository.

The Python source is shallowly embedded: each definition below models a
specific region of `daily.py` (line numbers cited in the doc comments).
Python truthiness is made explicit (`Option` with `none`/empty meaning
falsy), exceptions are modelled with `PyResult`, and the handful of
external libraries (pyseq, the `tc` timecode module, oiio, text
rasterisation) are either modelled from the specification's description
of their contract or abstracted as function parameters.
-/

/-- Result of running a piece of Python code: either a value or a raised
exception (identified by the exception class name). -/
inductive PyResult (α : Type) where
  | ok (a : α)
  | exn (err : String)
deriving DecidableEq, Repr

/-- Splits a character list at every occurrence of the separator, like
Python `str.split(sep)` for a one-character separator: `splitOnChar '.'`
on `"a.b"` gives `["a", "b"]`, and a string without the separator yields
the singleton list of itself. -/
def splitOnChar (sep : Char) : List Char → List (List Char)
  | [] => [[]]
  | c :: rest =>
    let r := splitOnChar sep rest
    if c = sep then [] :: r
    else
      match r with
      | [] => [[c]]
      | g :: gs => (c :: g) :: gs

/-- Models `name.split(".")[-1]` (daily.py line 445): the part of the name
after the last dot, or the whole name if it has no dot. -/
def extOf (s : String) : String :=
  ⟨(splitOnChar '.' s.data).getLastD []⟩

/-- ASCII lower-casing of one character (used to state claims about
case sensitivity; the Python source itself never lower-cases). -/
def lowerChar (c : Char) : Char :=
  if 65 ≤ c.toNat ∧ c.toNat ≤ 90 then Char.ofNat (c.toNat + 32) else c

/-- ASCII lower-casing of a string. -/
def lowerStr (s : String) : String := ⟨s.data.map lowerChar⟩

/-- Index of the first occurrence of a character in a list (list length if
absent), a helper for the `os.path.splitext` model. -/
def idxOfChar (c : Char) : List Char → Nat
  | [] => 0
  | a :: rest => if a = c then 0 else idxOfChar c rest + 1

/-- Models `os.path.splitext` on a POSIX path: splits at the last dot of
the final path component, except that a component consisting only of
leading dots up to that position has no extension (CPython
`genericpath._splitext`). Returns (root, extension-with-dot). -/
def ossplitext (p : String) : String × String :=
  let cs := p.data
  let fstart : Nat :=
    if cs.contains '/' then cs.length - idxOfChar '/' cs.reverse else 0
  if cs.contains '.' then
    let di := cs.length - 1 - idxOfChar '.' cs.reverse
    if fstart ≤ di ∧ ((cs.drop fstart).take (di - fstart)).any (fun c => !(c = '.')) then
      (⟨cs.take di⟩, ⟨cs.drop di⟩)
    else
      (p, "")
  else
    (p, "")

/-- Models `os.path.splitext(f)[-1][1:]` (daily.py line 406): the file
extension without its dot, or the empty string when there is none. -/
def splitextExt1 (f : String) : String :=
  ⟨(ossplitext f).2.data.drop 1⟩

/-- The accepted image formats, daily.py lines 382-394
(`input_image_formats`). -/
def inputImageFormats : List String :=
  ["exr", "tif", "tiff", "png", "jpg", "jpeg", "iff", "tex", "tx", "jp2", "j2c"]

/-- Models the membership test of daily.py lines 403-407: a directory
entry counts as an image file when `os.path.splitext(f)[-1][1:]` is in
`input_image_formats` (a case-sensitive comparison). -/
def isApprovedFile (f : String) : Bool :=
  decide (splitextExt1 f ∈ inputImageFormats)

/-- Models the extension filter of daily.py lines 443-447: a discovered
sequence (represented by its name) is kept exactly when
`name.split(".")[-1]` is in `input_image_formats` (case-sensitive). -/
def filterApproved (seqs : List String) : List String :=
  seqs.filter (fun s => decide (extOf s ∈ inputImageFormats))

/-- daily.py line 27: the default config path sits beside the program. -/
def DAILIES_CONFIG_DEFAULT (dir_path : String) : String :=
  dir_path ++ "/dailies-config.json"

/-- daily.py line 29. -/
def DEFAULT_OCIO_FILE_PATH : String := "./config.ocio"

/-- daily.py line 30. -/
def DEFAULT_OCIO_TRANSFORM : List String := ["linear", "sRGB"]

/-- daily.py lines 43-45: the config path comes from the DAILIES_CONFIG
environment variable unless that is unset or empty (Python falsy), in
which case the default beside the program is used. -/
def resolveConfigPath (dir_path : String) (env : Option String) : String :=
  match env with
  | some p => if p = "" then DAILIES_CONFIG_DEFAULT dir_path else p
  | none => DAILIES_CONFIG_DEFAULT dir_path

/-- Models daily.py lines 439-452, the tail of `get_image_sequences`:
`None` or an empty discovery list is reported as failure (`if
image_sequences:` is falsy on both), otherwise the extension filter of
lines 443-447 is applied (its result may be empty). -/
def finalizeSequences (discovered : Option (List String)) : Option (List String) :=
  match discovered with
  | none => none
  | some l => if l.isEmpty then none else some (filterApproved l)

/-- Observable outcome of constructing `GenrateDaily` (daily.py
lines 36-156): whether setup succeeded, the console messages printed on
the abort paths modelled here, and the sequences for which `process()`
was invoked by the loop at lines 154-156. -/
structure RunOutcome where
  setup_success : Bool
  printed : List String
  processed : List String
deriving DecidableEq, Repr

/-- Models the control flow of `GenrateDaily.__init__` relevant to the
abort paths (daily.py lines 43-54, 98-103, 152-156). `isfile` stands for
`os.path.isfile`, `discovered` for the raw result of the walk/scan of
`get_image_sequences` before its final filtering (lines 396-437).
If the config file is missing, `__init__` returns at line 54 before
`get_image_sequences` is ever called; if no sequence survives
(lines 100-103) it returns before any processing; otherwise the loop at
lines 154-156 calls `process()` once per surviving sequence. The color
and resolution setup of lines 105-151 is embedded separately below
(`setupColor`, `resolveOutputSize`). -/
def GenrateDaily_init (dir_path : String) (env : Option String)
    (isfile : String → Bool) (discovered : Option (List String)) : RunOutcome :=
  let cfgPath := resolveConfigPath dir_path env
  if isfile cfgPath then
    match finalizeSequences discovered with
    | none =>
      { setup_success := false
        printed := ["No image sequence found! Exiting..."]
        processed := [] }
    | some seqs =>
      if seqs.isEmpty then
        { setup_success := false
          printed := ["No image sequence found! Exiting..."]
          processed := [] }
      else
        { setup_success := true
          printed := []
          processed := seqs }
  else
    { setup_success := false
      printed := ["Error: Could not find config file " ++ cfgPath]
      processed := [] }

/-- Python truthiness of a possibly-missing string config value: `None`
and the empty string are falsy. -/
def truthyS : Option String → Bool
  | some s => !(s == "")
  | none => false

/-- Python truthiness of a possibly-null numeric config value: `null`/`None`
and `0` are falsy. -/
def truthyN : Option Nat → Bool
  | some n => !(n == 0)
  | none => false

/-- Value held by the `self.ocioconfig` attribute after daily.py
lines 105-135: the code stores either a path string, or (line 129) the
literal list `DEFAULT_OCIO_TRANSFORM`, or `None` (line 118). -/
inductive OcioConfigVal where
  | vstr (s : String)
  | vlist (l : List String)
  | vnone
deriving DecidableEq, Repr

/-- Python truthiness of the `ocioconfig` attribute value. -/
def ocioTruthy : OcioConfigVal → Bool
  | .vstr s => !(s == "")
  | .vlist l => !l.isEmpty
  | .vnone => false

/-- State produced by the color setup of daily.py lines 105-135: the
`ocioconfig` and `ociocolorconvert` attributes plus the two messages that
block can emit (the line 113 missing-config warning and the line 132
no-transform warning). -/
structure ColorSetup where
  ocioconfig : OcioConfigVal
  ociocolorconvert : Option (List String)
  warned_missing_config : Bool
  printed_no_transform : Bool
deriving DecidableEq, Repr

/-- Models daily.py lines 105-135 verbatim.
Lines 105-110: `self.ocioconfig` is the config value, defaulting to
`DEFAULT_OCIO_FILE_PATH` when falsy. Lines 112-118: if the path does not
exist, warn and set it to `None`. Line 121: `self.ociocolorconvert` is
the configured transform (falsy normalised to `none`). Lines 128-135:
the code then tests `if not self.ocioconfig` — when the config path was
missing it assigns the list `DEFAULT_OCIO_TRANSFORM` to `self.ocioconfig`
itself, and otherwise (the path exists) it prints the no-transform
warning and sets `self.ociocolorconvert = None`. -/
def setupColor (cfg_ocioconfig : Option String)
    (cfg_ocio_transform : Option (List String))
    (path_exists : String → Bool) : ColorSetup :=
  let s1 : String :=
    match cfg_ocioconfig with
    | some s => if s = "" then DEFAULT_OCIO_FILE_PATH else s
    | none => DEFAULT_OCIO_FILE_PATH
  let ocioconfig2 : Option String := if path_exists s1 then some s1 else none
  let warned := !path_exists s1
  let ociocolorconvert0 : Option (List String) :=
    match cfg_ocio_transform with
    | some l => if l.isEmpty then none else some l
    | none => none
  match ocioconfig2 with
  | none =>
    { ocioconfig := .vlist DEFAULT_OCIO_TRANSFORM
      ociocolorconvert := ociocolorconvert0
      warned_missing_config := warned
      printed_no_transform := false }
  | some s =>
    { ocioconfig := .vstr s
      ociocolorconvert := none
      warned_missing_config := warned
      printed_no_transform := true }

/-- Modelled from the spec: the per-frame color step (spec section 4.3
step 2) is not present in src/ — `process()` stops before any frame
loop. Per the spec's words, a frame receives the OCIO color transform
exactly when a color configuration and a source-to-destination transform
are both configured (truthy) after setup. -/
def colorTransformApplied (st : ColorSetup) : Bool :=
  ocioTruthy st.ocioconfig && st.ociocolorconvert.isSome

/-- Native resolution of a decoded frame (`oiio.ImageBuf(...).spec()`,
daily.py lines 141-142); oiio is external, so the decode is a
parameter mapping the frame path to its spec. -/
structure ImageSpecT where
  width : Nat
  height : Nat
deriving DecidableEq, Repr

/-- daily.py: the only assignment to `self.image_sequence` is the loop
header at line 155 (`for self.image_sequence in self.image_sequences:`),
which runs after line 152. At line 141 the attribute does not exist yet;
this definition records that state (reading a never-assigned attribute
raises AttributeError). -/
def image_sequence_at_line_141 : Option (List String) := none

/-- Models daily.py lines 137-150. `cfg_width`/`cfg_height` are
`globals_config["width"]`/`["height"]` (with `none` for JSON null);
`image_sequence` is the value of the `self.image_sequence` attribute at
line 141 (`none` when the attribute was never assigned, in which case
Python raises AttributeError); `frameSpec` is the external oiio decode.
In the derivation branch, `iar = width/height` and
`height = int(round(output_width / iar))`; the float `round` is modelled
on ℚ (Python rounds half to even, Mathlib half up — they agree except
when the quotient is exactly half-integral). -/
def resolveOutputSize (cfg_width cfg_height : Option Nat)
    (image_sequence : Option (List String))
    (frameSpec : String → ImageSpecT) : PyResult (Nat × Nat) :=
  if truthyN cfg_width && truthyN cfg_height then
    .ok (cfg_width.getD 0, cfg_height.getD 0)
  else
    match image_sequence with
    | none => .exn "AttributeError"
    | some frames =>
      match frames with
      | [] => .exn "IndexError"
      | p :: _ =>
        let spec := frameSpec p
        if spec.height = 0 ∨ spec.width = 0 then .exn "ZeroDivisionError"
        else
          let w := if truthyN cfg_width then cfg_width.getD 0 else spec.width
          let h :=
            if truthyN cfg_height then cfg_height.getD 0
            else (round ((w : ℚ) * spec.height / spec.width)).toNat
          .ok (w, h)

mutual
/-- Directory tree used to model the filesystem walk of
`get_image_sequences` (daily.py lines 396-413): a directory holds files
(by name) and named sub-directories. -/
inductive FsDir where
  | mk (files : List String) (subdirs : FsDirs)
/-- The named sub-directories of an `FsDir`, as a list. -/
inductive FsDirs where
  | dnil
  | dcons (name : String) (d : FsDir) (rest : FsDirs)
end

/-- Files directly inside a directory. -/
def FsDir.files : FsDir → List String
  | .mk fs _ => fs

/-- Named sub-directories of a directory. -/
def FsDir.subdirs : FsDir → FsDirs
  | .mk _ ss => ss

mutual
/-- Models `os.walk` (top-down): the list of (path, directory) entries in
depth-first preorder, paths built by joining with "/". -/
def walkFrom (path : String) : FsDir → List (String × FsDir)
  | .mk files subs => (path, .mk files subs) :: walkChildren path subs
/-- Walk entries contributed by a list of sub-directories, in order. -/
def walkChildren (path : String) : FsDirs → List (String × FsDir)
  | .dnil => []
  | .dcons name d rest => walkFrom (path ++ "/" ++ name) d ++ walkChildren path rest
end

/-- Removes the trailing run of decimal digits, used to strip a frame
number from a file stem. -/
def stripTrailingDigits (cs : List Char) : List Char :=
  (cs.reverse.dropWhile (fun c => c.isDigit)).reverse

/-- Grouping key of a filename: its stem (dot-components before the last
one, joined) with the trailing frame digits stripped, together with its
extension. -/
def seqKey (f : String) : List Char × String :=
  (stripTrailingDigits (List.intercalate ['.'] ((splitOnChar '.' f.data).dropLast)), extOf f)

/-- Modelled from the spec: the sequence-detection library
(`pyseq.get_sequences`) is an external collaborator, described as
"given a directory, returns mappings of base name → sorted frame-number
ranges with shared padding", with "mixed extensions within one directory
produce disjoint sequences, one per extension/base-name combination" and
a lone file forming its own single-member grouping. Each grouping is
represented here by the name of its first member file (which carries the
grouping's base name and extension, all that the claims consume). -/
def pyseqGetSequences (files : List String) : List String :=
  files.foldl
    (fun acc f => if acc.any (fun g => decide (seqKey g = seqKey f)) then acc else acc ++ [f])
    []

/-- One iteration of the `os.walk` loop of daily.py lines 400-413: when
the entry is the input path itself and it directly contains more than one
approved image file, the input directory is scanned with pyseq
(lines 402-409); then every direct sub-directory of the entry is scanned
with pyseq unconditionally (lines 410-413). -/
def scanChildren : FsDirs → List String
  | .dnil => []
  | .dcons _ d rest => pyseqGetSequences d.files ++ scanChildren rest

/-- Body of the walk loop, daily.py lines 400-413 (see `scanChildren`). -/
def walkLoopStep (inputPath : String) (inputDir : FsDir)
    (acc : List String) (entry : String × FsDir) : List String :=
  let acc2 :=
    if entry.1 = inputPath then
      if 1 < (entry.2.files.filter isApprovedFile).length then
        acc ++ pyseqGetSequences inputDir.files
      else acc
    else acc
  acc2 ++ scanChildren entry.2.subdirs

/-- Models daily.py lines 399-413: the sequences accumulated by walking
the input directory. -/
def getSequencesViaWalk (inputPath : String) (root : FsDir) : List String :=
  (walkFrom inputPath root).foldl (walkLoopStep inputPath root) []

/-- Models the directory branch of `get_image_sequences`
(daily.py lines 396-420 plus the shared tail at 439-452): `none` when the
walk found nothing (line 420), otherwise the extension-filtered list. -/
def get_image_sequences_dir (inputPath : String) (root : FsDir) : Option (List String) :=
  let image_sequences := getSequencesViaWalk inputPath root
  if image_sequences.isEmpty then none
  else some (filterApproved image_sequences)

mutual
/-- The claim's resolver, written from the claim's and spec's words
("at each directory level, if it directly contains more than one file
whose extension is in the accepted image-format set, group those files
into one or more SequenceDescriptors...; sub-directories are each
independently scanned the same way"), for comparison with the source's
`getSequencesViaWalk`. -/
def claimResolve : FsDir → List String
  | .mk fs subs =>
    (if 1 < (fs.filter isApprovedFile).length then
      pyseqGetSequences (fs.filter isApprovedFile)
    else []) ++ claimResolveChildren subs
/-- The claim's resolver on a list of sub-directories. -/
def claimResolveChildren : FsDirs → List String
  | .dnil => []
  | .dcons _ d rest => claimResolve d ++ claimResolveChildren rest
end

/-- The direct sub-directories, in order. -/
def childrenOf : FsDirs → List FsDir
  | .dnil => []
  | .dcons _ d rest => d :: childrenOf rest

mutual
/-- All directories whose files the walk loop passes to pyseq: every
proper descendant of the root, in the order the loop scans them. -/
def scannedDirs : FsDir → List FsDir
  | .mk _ subs => childrenOf subs ++ scannedChildren subs
/-- The scanned directories contributed by a list of sub-directories. -/
def scannedChildren : FsDirs → List FsDir
  | .dnil => []
  | .dcons _ d rest => scannedDirs d ++ scannedChildren rest
end

/-- An in-memory raster as allocated by `oiio.ImageBuf(oiio.ImageSpec(w,
h, nchannels, type))` (daily.py lines 273-277): samples are stored
flattened and a fresh buffer is zero-initialised (oiio semantics; a zero
alpha channel means fully transparent). -/
structure ImageBuf where
  width : Nat
  height : Nat
  channels : Nat
  pixels : List Nat
deriving DecidableEq, Repr

/-- A fresh, zero-initialised oiio image buffer. -/
def oiioImageBufNew (w h c : Nat) : ImageBuf :=
  { width := w, height := h, channels := c, pixels := List.replicate (w * h * c) 0 }

/-- A static text element of the slate profile
(`zero_frame.static_text_elements` values): text, font, size, position,
color, per the config schema. -/
structure TextElement where
  text : String := ""
  font : String := ""
  size : Nat := 0
  pos : Nat × Nat := (0, 0)
  color : List Nat := []
deriving DecidableEq, Repr

/-- Models daily.py lines 272-288, executed inside `process()`: a fresh
`output_width × output_height` RGBA buffer is allocated (lines 273-277)
and then, if static text elements are configured, each is rendered into
it in turn (lines 282-288). The rasteriser `generate_text` is called on
`self` but is not defined in src/, so it is abstracted as the parameter
`rasterize`; nothing below depends on what it draws. -/
def processStaticText (w h : Nat) (elements : List (String × TextElement))
    (rasterize : String → TextElement → ImageBuf → ImageBuf) : ImageBuf :=
  let static_text_buf := oiioImageBufNew w h 4
  if elements.isEmpty then static_text_buf
  else elements.foldl (fun b e => rasterize e.1 e.2 b) static_text_buf

/-- Models the run loop of daily.py lines 154-156 restricted to the
overlay-building effect: `process()` — and with it the buffer allocation
of lines 273-277 — runs once for every discovered sequence, so the run
produces one overlay buffer per sequence. -/
def runProcessAll (seqs : List String) (w h : Nat)
    (elements : List (String × TextElement))
    (rasterize : String → TextElement → ImageBuf → ImageBuf) : List ImageBuf :=
  seqs.map (fun _ => processStaticText w h elements rasterize)

/-- Codec preset (daily.py `self.codec_config`, selected from the
config's `output_codecs` table). Flag values are kept as the strings they
are formatted into the command with; `none` models a falsy value, whose
flag is omitted (daily.py lines 324-364). -/
structure CodecConfig where
  name : String
  bitdepth : Nat
  codec : Option String := none
  profile : Option String := none
  qscale : Option String := none
  preset : Option String := none
  keyint : Option String := none
  bframes : Option String := none
  tune : Option String := none
  crf : Option String := none
  pix_fmt : Option String := none
  vf : Option String := none
  vendor : Option String := none
  metadata_s : Option String := none
  bitrate : Option String := none
deriving DecidableEq, Repr

/-- Two-digit rendering of a field of an HH:MM:SS:FF timecode. -/
def two2 (n : Nat) : String :=
  ⟨[Nat.digitChar (n / 10), Nat.digitChar (n % 10)]⟩

/-- Modelled from the spec: the `tc.Timecode` library (daily.py lines
265-266) is an external collaborator; per the spec the starting timecode
is the frame-rate-based conversion of the sequence's start frame,
counting from 00:00:00:00, formatted `HH:MM:SS:FF`. -/
def frameToTimecode (framerate frame : Nat) : String :=
  two2 (frame / (3600 * framerate)) ++ ":" ++
  two2 (frame / (60 * framerate) % 60) ++ ":" ++
  two2 (frame / framerate % 60) ++ ":" ++
  two2 (frame % framerate)

/-- daily.py lines 265-266: `Timecode(framerate, start_timecode="00:00:00:00")
+ image_sequence.start()`. -/
def start_tc_of (framerate startFrame : Nat) : String :=
  frameToTimecode framerate startFrame

/-- Appends a flag and its value when the config value is truthy
(daily.py lines 324-364 pattern: `if self.codec_config[key]: args += ...`). -/
def flagIf (args flag : String) : Option String → String
  | some v => args ++ flag ++ v
  | none => args

/-- The input section of the ffmpeg command (daily.py lines 299-319):
mjpeg takes piped frames, every other codec takes raw video at the
output size and the pixel format chosen from the bit depth. -/
def ffmpegInputArgs (codec_config : CodecConfig) (framerate width height : Nat) : String :=
  let ffmpeg_command := "ffmpeg"
  let pixel_format := if 10 ≤ codec_config.bitdepth then "rgb48le" else "rgb24"
  if codec_config.name = "mjpeg" then
    ffmpeg_command ++ " -y -framerate " ++ toString framerate ++ " -i pipe:0"
  else
    ffmpeg_command ++ " -hide_banner -loglevel info -y -f rawvideo -pixel_format " ++
      pixel_format ++ " -video_size " ++ toString width ++ "x" ++ toString height ++
      " -framerate " ++ toString framerate ++ " -i pipe:0"

/-- The conditional flag appends of daily.py lines 324-364 in source
order: each entry is one `if <config value>: args += "<flag>{value}"`
statement, with a falsy value encoded as `none` (the `-r` entry encodes
`if self.globals_config["framerate"]:` at lines 351-352 the same way). -/
def ffmpegFlagList (codec_config : CodecConfig) (framerate : Nat) :
    List (String × Option String) :=
  [(" -c:v ", codec_config.codec),
   (" -profile:v ", codec_config.profile),
   (" -qscale:v ", codec_config.qscale),
   (" -preset ", codec_config.preset),
   (" -g ", codec_config.keyint),
   (" -bf ", codec_config.bframes),
   (" -tune ", codec_config.tune),
   (" -crf ", codec_config.crf),
   (" -pix_fmt ", codec_config.pix_fmt),
   (" -r ", if framerate ≠ 0 then some (toString framerate) else none),
   (" -vf ", codec_config.vf),
   (" -vendor ", codec_config.vendor),
   (" -metadata:s ", codec_config.metadata_s),
   (" -b:v ", codec_config.bitrate)]

/-- Models `setup_ffmpeg` (daily.py lines 290-369): the input section,
then the `-timecode` flag (lines 321-322), then each conditional flag in
source order, then the output movie path (line 367). -/
def setup_ffmpeg (codec_config : CodecConfig) (framerate width height : Nat)
    (start_tc : String) (movie_fullpath : String) : String :=
  (ffmpegFlagList codec_config framerate).foldl (fun a fo => flagIf a fo.1 fo.2)
    (ffmpegInputArgs codec_config framerate width height ++ " -timecode " ++ start_tc)
    ++ " " ++ movie_fullpath

/-- The module-level logger `log` (daily.py line 32): the paths of the
file handlers currently attached to it. -/
structure LoggerState where
  handlers : List String
deriving DecidableEq, Repr

/-- The per-movie log path: `os.path.splitext(movie_fullpath)[0] + ".log"`
(daily.py line 232). -/
def logPathOf (movie_fullpath : String) : String :=
  (ossplitext movie_fullpath).1 ++ ".log"

/-- Models the logger setup inside `process()` (daily.py lines 231-241):
any pre-existing file at the log path is removed, and a fresh
`FileHandler` for it is added to the module-level logger. No handler is
ever removed from the logger anywhere in daily.py. -/
def process_setupLogger (st : LoggerState) (movie_fullpath : String) : LoggerState :=
  { handlers := st.handlers ++ [logPathOf movie_fullpath] }

/-- The logger state after `process()` has run for each of the given
movie paths in order (the loop of daily.py lines 154-156). -/
def loggerAfter (moviePaths : List String) : LoggerState :=
  moviePaths.foldl process_setupLogger { handlers := [] }

/-- The files a log event emitted while processing sequence `i` is
written to: every handler attached after sequence `i`'s logger setup —
i.e. the handlers accumulated over sequences `0..i` (Python's logging
writes each record to all attached handlers). -/
def eventTargets (moviePaths : List String) (i : Nat) : List String :=
  (loggerAfter (moviePaths.take (i + 1))).handlers

/-- Does the string start with the given character
(Python `str.startswith` for the one-character prefixes daily.py
lines 202-211 test)? -/
def startsWithChar (c : Char) (s : String) : Bool :=
  match s.data with
  | [] => false
  | a :: _ => a = c

/-- `os.path.join` for a non-absolute, non-empty right component. -/
def pathJoin (a b : String) : String := a ++ "/" ++ b

/-- The local variables of `process()` set by the movie-naming block
(daily.py lines 177-190); `none` means the local was never assigned in
this call. -/
structure MovieNameLocals where
  codec_name : Option String
  movie_basename : Option String
  movie_filename : Option String
deriving DecidableEq, Repr

/-- Models daily.py lines 177-190: with `movie_append_codec` truthy the
codec name is looked up; when it is falsy the code prints a complaint and
sets `codec_name = ""` but assigns neither `movie_basename` nor
`movie_filename`; with a truthy codec name, or with `movie_append_codec`
falsy, both are assigned. -/
def process_movieName (movie_append_codec : Bool) (cfg_name : Option String)
    (seq_basename movie_ext : String) : MovieNameLocals :=
  if movie_append_codec then
    if truthyS cfg_name then
      let cn := cfg_name.getD ""
      { codec_name := some cn
        movie_basename := some (seq_basename ++ "_" ++ cn)
        movie_filename := some (seq_basename ++ "_" ++ cn ++ "." ++ movie_ext) }
    else
      { codec_name := some ""
        movie_basename := none
        movie_filename := none }
  else
    { codec_name := none
      movie_basename := some seq_basename
      movie_filename := some (seq_basename ++ "." ++ movie_ext) }

/-- Models daily.py lines 202-217: building `self.movie_fullpath` from
the movie location and the `movie_filename` local. Every one of the four
branches reads `movie_filename`, so if that local was never assigned
(see `process_movieName`) Python raises UnboundLocalError. `expanduser`
stands for the external `os.path.expanduser`. -/
def process_moviePath (movie_location seq_dirname : String)
    (expanduser : String → String)
    (movie_filename : Option String) : PyResult String :=
  match movie_filename with
  | none => .exn "UnboundLocalError"
  | some f =>
    if startsWithChar '/' movie_location then
      .ok (pathJoin movie_location f)
    else if startsWithChar '~' movie_location then
      .ok (pathJoin (expanduser movie_location) f)
    else if startsWithChar '.' movie_location then
      .ok (pathJoin (pathJoin seq_dirname movie_location) f)
    else
      .ok (pathJoin movie_location f)

/-- A concrete input directory for the sequence resolver: the top level
holds no files and one sub-directory `shots` holding exactly one image
file. -/
def exTreeC3 : FsDir :=
  .mk [] (.dcons "shots" (.mk ["shot.0001.exr"] .dnil) .dnil)

-- Sanity checks of the embedding on concrete inputs.
example : extOf "shot.0001.exr" = "exr" := by decide
example : extOf "noext" = "noext" := by decide
example : splitextExt1 "shot.0001.exr" = "exr" := by decide
example : splitextExt1 ".bashrc" = "" := by decide
example : ossplitext "/out/a.mov" = ("/out/a", ".mov") := by decide
example : ossplitext "/ou.t/amov" = ("/ou.t/amov", "") := by decide
example : filterApproved ["a.exr", "b.mov", "c.EXR"] = ["a.exr"] := by decide

/-- Claim C1: the claim says that when a color-config path is configured,
the file exists and a source-to-destination transform is configured, the
per-frame color transform is applied. On the code this fails: line 128
tests `if not self.ocioconfig` (the path variable, not the transform), so
for an existing config path the else branch of lines 130-135 always runs,
printing the no-transform warning and clearing `self.ociocolorconvert`,
and no transform is applied. Conversely, when the path is missing while a
transform is configured, line 129 assigns the truthy literal list
`DEFAULT_OCIO_TRANSFORM` to `self.ocioconfig` and the transform stays
configured, so frames do not pass through untransformed either. This
theorem evaluates the embedded setup at both failing inputs. -/
theorem C1_color_transform_dropped :
    ((setupColor (some "/config.ocio") (some ["linear", "sRGB"]) (fun _ => true)).ociocolorconvert
        = none ∧
      (setupColor (some "/config.ocio") (some ["linear", "sRGB"]) (fun _ => true)).printed_no_transform
        = true ∧
      colorTransformApplied
        (setupColor (some "/config.ocio") (some ["linear", "sRGB"]) (fun _ => true)) = false) ∧
    ((setupColor (some "/config.ocio") (some ["linear", "sRGB"]) (fun _ => false)).ocioconfig
        = .vlist DEFAULT_OCIO_TRANSFORM ∧
      (setupColor (some "/config.ocio") (some ["linear", "sRGB"]) (fun _ => false)).warned_missing_config
        = true ∧
      colorTransformApplied
        (setupColor (some "/config.ocio") (some ["linear", "sRGB"]) (fun _ => false)) = true) := by
  decide

/-- Claim C2: the claim says that with `output_width`/`output_height`
missing from config the dimensions are derived from the first frame of
the first discovered sequence. On the code this crashes instead: line 141
reads `self.image_sequence`, an attribute first assigned only by the loop
header at line 155, so the derivation branch raises AttributeError for
every run that enters it. -/
theorem C2_resolution_derivation_crashes (cfg_width cfg_height : Option Nat)
    (frameSpec : String → ImageSpecT)
    (h : truthyN cfg_width = false ∨ truthyN cfg_height = false) :
    resolveOutputSize cfg_width cfg_height image_sequence_at_line_141 frameSpec =
      .exn "AttributeError" := by
  have hand : (truthyN cfg_width && truthyN cfg_height) = false := by
    rcases h with h | h <;> simp [h]
  simp [resolveOutputSize, image_sequence_at_line_141, hand]

/-- Witness for C2: a config with null width and height 1080. -/
theorem C2_resolution_derivation_crashes_witness :
    resolveOutputSize none (some 1080) image_sequence_at_line_141
      (fun _ => { width := 1920, height := 1080 }) = .exn "AttributeError" :=
  C2_resolution_derivation_crashes none (some 1080)
    (fun _ => { width := 1920, height := 1080 }) (Or.inl (by decide))

/-- Claim C6: when the config file (resolved from the DAILIES_CONFIG
environment variable, else the fixed default beside the program) does not
exist, the run aborts before any sequence is processed and the error
message names the offending path (daily.py lines 43-54). -/
theorem C6_missing_config_aborts (dir_path : String) (env : Option String)
    (isfile : String → Bool) (discovered : Option (List String))
    (h : isfile (resolveConfigPath dir_path env) = false) :
    (GenrateDaily_init dir_path env isfile discovered).setup_success = false ∧
    (GenrateDaily_init dir_path env isfile discovered).processed = [] ∧
    (GenrateDaily_init dir_path env isfile discovered).printed =
      ["Error: Could not find config file " ++ resolveConfigPath dir_path env] ∧
    ∃ pre suf, ("Error: Could not find config file " ++ resolveConfigPath dir_path env)
      = pre ++ resolveConfigPath dir_path env ++ suf := by
  refine ⟨?_, ?_, ?_, "Error: Could not find config file ", "", by simp⟩ <;>
    simp [GenrateDaily_init, h]

/-- Witness for C6: no environment override, a filesystem on which no
path is a file; the run aborts with the default path in the message. -/
theorem C6_missing_config_aborts_witness :
    (GenrateDaily_init "/app" none (fun _ => false) none).setup_success = false ∧
    (GenrateDaily_init "/app" none (fun _ => false) none).processed = [] ∧
    (GenrateDaily_init "/app" none (fun _ => false) none).printed =
      ["Error: Could not find config file /app/dailies-config.json"] :=
  have h := C6_missing_config_aborts "/app" none (fun _ => false) none (by decide)
  ⟨h.1, h.2.1, h.2.2.1⟩

/-- Claim C5: every discovered grouping whose extension is not in the
accepted set is discarded (daily.py lines 443-447), and if nothing
remains the run aborts with no sequence processed (`if not
self.image_sequences` at lines 100-103). -/
theorem C5_filter_and_abort (dir_path : String) (env : Option String)
    (isfile : String → Bool) (discovered : List String)
    (hcfg : isfile (resolveConfigPath dir_path env) = true) :
    (∀ s, s ∈ filterApproved discovered ↔
        s ∈ discovered ∧ extOf s ∈ inputImageFormats) ∧
    (filterApproved discovered = [] →
      (GenrateDaily_init dir_path env isfile (some discovered)).setup_success = false ∧
      (GenrateDaily_init dir_path env isfile (some discovered)).processed = []) := by
  constructor
  · intro s
    simp [filterApproved, List.mem_filter]
  · intro hempty
    by_cases hd : discovered.isEmpty <;>
      simp [GenrateDaily_init, hcfg, finalizeSequences, hd, hempty]

/-- Witness for C5: one discovered grouping with extension `mov`; it is
filtered out and the run aborts with nothing processed. -/
theorem C5_filter_and_abort_witness :
    (GenrateDaily_init "/app" none (fun _ => true) (some ["shot.0001.mov"])).setup_success
      = false ∧
    (GenrateDaily_init "/app" none (fun _ => true) (some ["shot.0001.mov"])).processed = [] ∧
    "shot.0001.mov" ∉ filterApproved ["shot.0001.mov"] := by
  have h := C5_filter_and_abort "/app" none (fun _ => true) ["shot.0001.mov"] (by decide)
  have habort := h.2 (by decide)
  refine ⟨habort.1, habort.2, fun hin => ?_⟩
  have hmem := (h.1 "shot.0001.mov").mp hin
  exact absurd hmem.2 (by decide)

/-- Claim C9: with `movie_append_codec` truthy but no codec `name` in the
preset, the naming block of daily.py lines 177-190 sets only
`codec_name = ""` and never assigns `movie_filename`, so the path
construction at lines 202-217 raises UnboundLocalError. -/
theorem C9_unbound_movie_filename (cfg_name : Option String)
    (seq_basename movie_ext movie_location seq_dirname : String)
    (expanduser : String → String)
    (h : truthyS cfg_name = false) :
    (process_movieName true cfg_name seq_basename movie_ext).codec_name = some "" ∧
    (process_movieName true cfg_name seq_basename movie_ext).movie_basename = none ∧
    (process_movieName true cfg_name seq_basename movie_ext).movie_filename = none ∧
    process_moviePath movie_location seq_dirname expanduser
        (process_movieName true cfg_name seq_basename movie_ext).movie_filename
      = .exn "UnboundLocalError" := by
  simp [process_movieName, h, process_moviePath]

/-- Witness for C9: a preset whose `name` key is absent. -/
theorem C9_unbound_movie_filename_witness :
    (process_movieName true none "shot01" "mov").codec_name = some "" ∧
    (process_movieName true none "shot01" "mov").movie_filename = none ∧
    process_moviePath "/out" "/seq" (fun s => s)
        (process_movieName true none "shot01" "mov").movie_filename
      = .exn "UnboundLocalError" :=
  have h := C9_unbound_movie_filename none "shot01" "mov" "/out" "/seq" (fun s => s) (by decide)
  ⟨h.1, h.2.2.1, h.2.2.2⟩

/-- Each accepted image format is written in lower case, so lower-casing
fixes it. -/
theorem inputImageFormats_lower : ∀ f ∈ inputImageFormats, lowerStr f = f := by decide

/-- Claim C10: the extension filter of daily.py lines 443-447 compares
the grouping's extension case-sensitively against the all-lowercase
accepted list, so a grouping whose extension merely differs in case from
an accepted format (for example `.EXR`) is discarded. -/
theorem C10_uppercase_ext_discarded (seqs : List String) (s : String)
    (hmem : s ∈ seqs)
    (hlower : lowerStr (extOf s) ∈ inputImageFormats)
    (hupper : extOf s ≠ lowerStr (extOf s)) :
    s ∉ filterApproved seqs := by
  intro hin
  have hkept : decide (extOf s ∈ inputImageFormats) = true := (List.mem_filter.mp hin).2
  have hext : extOf s ∈ inputImageFormats := of_decide_eq_true hkept
  exact hupper (inputImageFormats_lower (extOf s) hext).symm

/-- Witness for C10: the grouping `SHOT.0001.EXR` has an accepted format
(lower-cased `exr`) but is discarded. -/
theorem C10_uppercase_ext_discarded_witness :
    "SHOT.0001.EXR" ∉ filterApproved ["SHOT.0001.EXR"] :=
  C10_uppercase_ext_discarded ["SHOT.0001.EXR"] "SHOT.0001.EXR"
    (by decide) (by decide) (by decide)

/-- Appending a conditional flag only ever extends the command string. -/
theorem flagIf_extends (args flag : String) (o : Option String) :
    ∃ t, flagIf args flag o = args ++ t := by
  cases o with
  | none => exact ⟨"", by simp [flagIf]⟩
  | some v => exact ⟨flag ++ v, by simp [flagIf, String.append_assoc]⟩

/-- Folding the conditional flag appends over the command string only
ever extends it. -/
theorem foldl_flagIf_extends :
    ∀ (flags : List (String × Option String)) (args : String),
      ∃ t, flags.foldl (fun a fo => flagIf a fo.1 fo.2) args = args ++ t
  | [], args => ⟨"", by simp⟩
  | fo :: rest, args => by
    obtain ⟨t1, h1⟩ := flagIf_extends args fo.1 fo.2
    obtain ⟨t2, h2⟩ := foldl_flagIf_extends rest (flagIf args fo.1 fo.2)
    exact ⟨t1 ++ t2, by rw [List.foldl_cons, h2, h1, String.append_assoc]⟩

/-- Claim C7: the encoder command produced by `setup_ffmpeg` carries a
`-timecode` flag whose value is the conversion of the sequence's start
frame at the configured frame rate, counting from 00:00:00:00 and
formatted HH:MM:SS:FF (eleven characters, two-digit fields separated by
colons, frames = start mod rate, seconds/minutes/hours by the successive
divisions). -/
theorem C7_timecode_flag (codec_config : CodecConfig)
    (framerate width height n : Nat) (movie_fullpath : String) :
    (∃ pre post,
      setup_ffmpeg codec_config framerate width height (start_tc_of framerate n)
          movie_fullpath
        = pre ++ (" -timecode " ++ start_tc_of framerate n) ++ post) ∧
    start_tc_of framerate n =
      two2 (n / (3600 * framerate)) ++ ":" ++ two2 (n / (60 * framerate) % 60) ++ ":" ++
        two2 (n / framerate % 60) ++ ":" ++ two2 (n % framerate) ∧
    (start_tc_of framerate n).length = 11 := by
  refine ⟨?_, rfl, rfl⟩
  obtain ⟨t, ht⟩ := foldl_flagIf_extends (ffmpegFlagList codec_config framerate)
    (ffmpegInputArgs codec_config framerate width height ++ " -timecode " ++
      start_tc_of framerate n)
  refine ⟨ffmpegInputArgs codec_config framerate width height,
    t ++ (" " ++ movie_fullpath), ?_⟩
  rw [setup_ffmpeg, ht]
  simp [String.append_assoc]

/-- Claim C4 counterexample: in a run with two discovered sequences the
overlay buffer of daily.py lines 273-277 is allocated twice — once per
`process()` call, hence once per sequence — not "exactly once per run"
as the claim states. -/
theorem C4_counterexample :
    (runProcessAll ["/shots/a", "/shots/b"] 4 2 [] (fun _ _ b => b)).length = 2 ∧
    (runProcessAll ["/shots/a", "/shots/b"] 4 2 [] (fun _ _ b => b)).length ≠ 1 := by
  decide

/-- Claim C4 as amended: the static text overlay buffer (sized
output_width × output_height, RGBA) is built once per sequence — the
loop of daily.py lines 154-156 calls `process()` per sequence and each
call allocates a fresh buffer at lines 273-277 — and when no static text
elements are configured every one of those buffers stays fully
transparent (all samples zero), so compositing it is a no-op. -/
theorem C4_overlay_per_sequence (seqs : List String) (w h : Nat)
    (elements : List (String × TextElement))
    (rasterize : String → TextElement → ImageBuf → ImageBuf) :
    (runProcessAll seqs w h elements rasterize).length = seqs.length ∧
    (elements = [] → ∀ b ∈ runProcessAll seqs w h elements rasterize,
      b = oiioImageBufNew w h 4 ∧ b.width = w ∧ b.height = h ∧ b.channels = 4 ∧
      b.pixels.all (fun x => x == 0) = true) := by
  constructor
  · simp [runProcessAll]
  · rintro rfl b hb
    simp only [runProcessAll, List.mem_map] at hb
    obtain ⟨s, _, rfl⟩ := hb
    refine ⟨by simp [processStaticText], by simp [processStaticText, oiioImageBufNew],
      by simp [processStaticText, oiioImageBufNew],
      by simp [processStaticText, oiioImageBufNew], ?_⟩
    simp only [processStaticText, List.isEmpty_nil, if_pos]
    simp [oiioImageBufNew, List.all_eq_true, List.mem_replicate]

/-- Witness for the amended C4: a single-sequence run with no static
text elements builds one buffer and it is all zero. -/
theorem C4_overlay_per_sequence_witness :
    (runProcessAll ["/shots/a"] 4 2 [] (fun _ _ b => b)).length = 1 ∧
    ∀ b ∈ runProcessAll ["/shots/a"] 4 2 [] (fun _ _ b => b),
      b.pixels.all (fun x => x == 0) = true := by
  have h := C4_overlay_per_sequence ["/shots/a"] 4 2 [] (fun _ _ b => b)
  exact ⟨h.1, fun b hb => (h.2 rfl b hb).2.2.2.2⟩

/-- Folding the per-sequence logger setup accumulates one file handler
per processed sequence; none is ever removed. -/
theorem loggerAfter_handlers :
    ∀ (l : List String) (st : LoggerState),
      (l.foldl process_setupLogger st).handlers = st.handlers ++ l.map logPathOf
  | [], st => by simp
  | p :: rest, st => by
    simp [List.foldl_cons, loggerAfter_handlers rest, process_setupLogger]

/-- Claim C8 counterexample: with two sequences producing movies
`/out/a.mov` then `/out/b.mov`, the handler for `/out/a.log` is still
attached while sequence B is processed (daily.py never removes or closes
a handler after lines 231-241), so a log event during B's processing is
written to A's log as well — the targets are not just B's log. -/
theorem C8_counterexample :
    eventTargets ["/out/a.mov", "/out/b.mov"] 1 ≠ [logPathOf "/out/b.mov"] ∧
    logPathOf "/out/a.mov" ∈ eventTargets ["/out/a.mov", "/out/b.mov"] 1 ∧
    logPathOf "/out/a.mov" = "/out/a.log" ∧ logPathOf "/out/b.mov" = "/out/b.log" := by
  decide

/-- Claim C8 as amended: each sequence's `process()` removes any
pre-existing file at its own log path (movie base name plus ".log") and
attaches a fresh handler for it, but no handler is ever detached, so
while sequence i is processed every log event goes to the logs of all
sequences 0..i, not exclusively to sequence i's log. -/
theorem C8_handlers_accumulate (moviePaths : List String) (i : Nat)
    (h : i < moviePaths.length) :
    eventTargets moviePaths i = (moviePaths.take (i + 1)).map logPathOf ∧
    ∀ p ∈ moviePaths.take (i + 1), logPathOf p ∈ eventTargets moviePaths i := by
  have h1 : eventTargets moviePaths i = (moviePaths.take (i + 1)).map logPathOf := by
    simp [eventTargets, loggerAfter, loggerAfter_handlers]
  exact ⟨h1, fun p hp => by rw [h1]; exact List.mem_map_of_mem _ hp⟩

/-- Witness for the amended C8: during the second sequence both log
files are attached, in processing order. -/
theorem C8_handlers_accumulate_witness :
    eventTargets ["/out/a.mov", "/out/b.mov"] 1 = ["/out/a.log", "/out/b.log"] := by
  have h := C8_handlers_accumulate ["/out/a.mov", "/out/b.mov"] 1 (by decide)
  rw [h.1]; decide

mutual
/-- Every entry of the walk rooted at `p` has a path at least as long
as `p`. -/
theorem walkFrom_path_le : (d : FsDir) → (p : String) →
    ∀ e ∈ walkFrom p d, p.length ≤ e.1.length
  | .mk fs subs, p => by
    intro e he
    rw [walkFrom] at he
    rcases List.mem_cons.mp he with he | he
    · rw [he]
    · have := walkChildren_path_lt subs p e he
      omega
/-- Every entry contributed by the sub-directories of a directory at
path `p` has a strictly longer path than `p` (the join appends at least
the "/" separator). -/
theorem walkChildren_path_lt : (subs : FsDirs) → (p : String) →
    ∀ e ∈ walkChildren p subs, p.length + 1 ≤ e.1.length
  | .dnil, p => by
    intro e he
    rw [walkChildren] at he
    exact absurd he (List.not_mem_nil e)
  | .dcons n d rest, p => by
    intro e he
    rw [walkChildren] at he
    rcases List.mem_append.mp he with he | he
    · have h1 := walkFrom_path_le d (p ++ "/" ++ n) e he
      have h2 : (p ++ "/" ++ n).length = p.length + 1 + n.length := by
        simp [String.length_append]
        rfl
      omega
    · exact walkChildren_path_lt rest p e he
end

/-- Folding the walk-loop body over entries none of which is the input
path itself only appends the unconditional sub-directory scans. -/
theorem foldl_walkLoopStep_no_root (inputPath : String) (inputDir : FsDir) :
    ∀ (l : List (String × FsDir)) (acc : List String),
      (∀ e ∈ l, e.1 ≠ inputPath) →
      l.foldl (walkLoopStep inputPath inputDir) acc
        = acc ++ l.flatMap (fun e => scanChildren e.2.subdirs)
  | [], acc, _ => by simp
  | e :: rest, acc, h => by
    have he : e.1 ≠ inputPath := h e (List.mem_cons_self e rest)
    have hr : ∀ x ∈ rest, x.1 ≠ inputPath := fun x hx => h x (List.mem_cons_of_mem e hx)
    rw [List.foldl_cons,
      foldl_walkLoopStep_no_root inputPath inputDir rest (walkLoopStep inputPath inputDir acc e) hr]
    simp [walkLoopStep, he]

/-- The unconditional scan of a directory list is the flatMap of pyseq
over the children. -/
theorem scanChildren_eq_flatMap : (subs : FsDirs) →
    scanChildren subs = (childrenOf subs).flatMap (fun d => pyseqGetSequences d.files)
  | .dnil => by simp [scanChildren, childrenOf]
  | .dcons n d rest => by
    simp [scanChildren, childrenOf, scanChildren_eq_flatMap rest]

mutual
/-- Summing the sub-directory scans over all walk entries of a subtree
gives the pyseq scans of exactly the scanned directories of that
subtree. -/
theorem walkFrom_flatMap : (d : FsDir) → (p : String) →
    (walkFrom p d).flatMap (fun e => scanChildren e.2.subdirs)
      = (scannedDirs d).flatMap (fun x => pyseqGetSequences x.files)
  | .mk fs subs, p => by
    rw [walkFrom, List.flatMap_cons, walkChildren_flatMap subs p, scannedDirs]
    simp [FsDir.subdirs, scanChildren_eq_flatMap subs]
/-- The sub-directory-scan sums contributed by a directory list. -/
theorem walkChildren_flatMap : (subs : FsDirs) → (p : String) →
    (walkChildren p subs).flatMap (fun e => scanChildren e.2.subdirs)
      = (scannedChildren subs).flatMap (fun x => pyseqGetSequences x.files)
  | .dnil, p => by simp [walkChildren, scannedChildren]
  | .dcons n d rest, p => by
    rw [walkChildren, scannedChildren]
    simp [walkFrom_flatMap d (p ++ "/" ++ n), walkChildren_flatMap rest p]
end

/-- Claim C3 counterexample: on an input directory whose only image file
sits alone in a sub-directory (so no directory level directly contains
more than one accepted file), the claim's resolver groups nothing, but
the code (daily.py lines 410-413) scans every sub-directory
unconditionally and returns the lone-file grouping, which also survives
the extension filter. -/
theorem C3_counterexample :
    getSequencesViaWalk "/in" exTreeC3 ≠ claimResolve exTreeC3 ∧
    getSequencesViaWalk "/in" exTreeC3 = ["shot.0001.exr"] ∧
    claimResolve exTreeC3 = [] ∧
    get_image_sequences_dir "/in" exTreeC3 = some ["shot.0001.exr"] := by
  decide

/-- Claim C3 as amended: the more-than-one-accepted-file gate applies
only to the top-level input directory (daily.py lines 402-409, guarded
by `root == input_path`), where it triggers a pyseq scan of all the input
directory's files; every sub-directory at every depth is scanned
unconditionally (lines 410-413), regardless of how many files it holds
or of their extensions. -/
theorem C3_subdirs_scanned_unconditionally (inputPath : String) (root : FsDir) :
    getSequencesViaWalk inputPath root =
      (if 1 < (root.files.filter isApprovedFile).length
        then pyseqGetSequences root.files else []) ++
      (scannedDirs root).flatMap (fun d => pyseqGetSequences d.files) := by
  cases root with
  | mk fs subs =>
    rw [getSequencesViaWalk, walkFrom, List.foldl_cons]
    have hne : ∀ e ∈ walkChildren inputPath subs, e.1 ≠ inputPath := by
      intro e he heq
      have := walkChildren_path_lt subs inputPath e he
      rw [heq] at this
      omega
    rw [foldl_walkLoopStep_no_root inputPath (.mk fs subs) _ _ hne,
      walkChildren_flatMap subs inputPath]
    have hstep : walkLoopStep inputPath (.mk fs subs) [] (inputPath, .mk fs subs)
        = (if 1 < ((FsDir.mk fs subs).files.filter isApprovedFile).length
            then pyseqGetSequences (FsDir.mk fs subs).files else []) ++ scanChildren subs := by
      rw [walkLoopStep]
      simp [FsDir.subdirs]
    rw [hstep, scannedDirs]
    simp [FsDir.subdirs, FsDir.files, scanChildren_eq_flatMap subs]
